import Mathlib

/-!
Verification of the native graphics factory
(src/Skia/Avalonia.NativeGraphics/native/factory.cpp).

The file `factory.cpp` defines the class AvgFactory (methods GetVersion,
CreateGlGpu, CreateGlGpuRenderTarget) and the exported entry point
CreateAvaloniaNativeGraphics.  The reference-counting base (comimpl.h) and
the backend objects AvgGlGpu / AvgGlRenderTarget (AvgGlGpu.h / .cpp) are not
part of the given sources; where a claim depends on them they are modelled
from the specification, and each such definition says so in its doc comment.

Pointers that may be null are modelled as Option; an out parameter that may
be left unwritten is modelled as an Option component of the result.  HRESULT
values are modelled as Int with the standard numeric values.
-/

/-- HRESULT success code. -/
def S_OK : Int := 0

/-- HRESULT E_INVALIDARG, the 32-bit value 0x80070057 read as a signed int. -/
def E_INVALIDARG : Int := -2147024809

/-- HRESULT E_FAIL, the 32-bit value 0x80004005 read as a signed int. -/
def E_FAIL : Int := -2147467259

/-- HRESULT E_NOINTERFACE, the 32-bit value 0x80004002 read as a signed int. -/
def E_NOINTERFACE : Int := -2147467262

/-- An interface identifier (IID), modelled as a plain token. -/
abbrev IID : Type := Nat

/-- Modelled from the spec: the reference-counted object base of comimpl.h
(ComObject / ComSingleObject) is not under the given sources.  Per the spec
an object carries a mutable count of outstanding ownership claims and a set
of capability identifiers it implements. -/
structure ComObject where
  refCount : Nat
  supported : List IID
deriving DecidableEq

/-- Modelled from the spec: a freshly constructed reference-counted object is
created with an implicit count of zero; it becomes owned only when the
creator registers the first claim. -/
def ComObject.new (supported : List IID) : ComObject :=
  { refCount := 0, supported := supported }

/-- Modelled from the spec: AddRef increments the ownership count and returns
the new count. -/
def ComObject.AddRef (o : ComObject) : Nat × ComObject :=
  let o' := { o with refCount := o.refCount + 1 }
  (o'.refCount, o')

/-- Modelled from the spec: Release decrements the count; when it reaches
zero the object is destroyed (the post-state is then none). -/
def ComObject.Release (o : ComObject) : Nat × Option ComObject :=
  let n := o.refCount - 1
  (n, if n = 0 then none else some { o with refCount := n })

/-- Modelled from the spec: the capability query of comimpl.h.  Querying an
identifier the object implements returns the object narrowed to that
capability with the count incremented by one (the returned handle is a new
claim); querying an unimplemented identifier returns the negative result
E_NOINTERFACE, writes no handle, and leaves the count unchanged. -/
def ComObject.QueryInterface (o : ComObject) (iid : IID) :
    Int × Option ComObject × ComObject :=
  if iid ∈ o.supported then
    let (_, o') := o.AddRef
    (S_OK, some o', o')
  else
    (E_NOINTERFACE, none, o)

/-- A resolver callback mapping a symbol name to an entry-point address, or
none when resolution of that symbol fails (IAvgGetProcAddressDelegate). -/
def GlResolver : Type := String → Option Nat

/-- Modelled from the spec: the backend GPU context object AvgGlGpu of
AvgGlGpu.h / .cpp is not under the given sources.  Per the spec it records
the API profile (full vs embedded) and the entry points resolved during
construction, and, once ready, carries one ownership claim transferred to
the caller of the construction call. -/
structure AvgGlGpu where
  gles : Bool
  entryPoints : List (String × Nat)
  refCount : Nat
deriving DecidableEq

/-- Resolve every required entry point through the callback; none as soon as
one resolution fails. -/
def resolveAll (res : GlResolver) : List String → Option (List (String × Nat))
  | [] => some []
  | n :: rest =>
    match res n with
    | none => none
    | some addr => (resolveAll res rest).map (fun l => (n, addr) :: l)

/-- Modelled from the spec: AvgGlGpu::Create (AvgGlGpu.cpp is not under the
given sources).  The resolver is invoked to bind every required entry point;
if resolution fails partway construction fails cleanly with a failure status
and no context handle is produced, so no partially-initialized context is
observable.  On success the returned handle carries one ownership claim.
The list of required entry points is a parameter, since its concrete content
lives in the missing backend source. -/
def AvgGlGpu.Create (required : List String) (gles : Bool)
    (glGetProcAddress : Option GlResolver) : Int × Option AvgGlGpu :=
  match glGetProcAddress with
  | none => (E_FAIL, none)
  | some res =>
    match resolveAll res required with
    | none => (E_FAIL, none)
    | some eps => (S_OK, some { gles := gles, entryPoints := eps, refCount := 1 })

/-- The dynamic type of an object reachable through an IAvgGpu interface
pointer: either the backend type AvgGlGpu of this module, or some other
implementation of the interface (a different backend family). -/
inductive IAvgGpuObj where
  | glGpu (g : AvgGlGpu)
  | otherBackend (id : Nat)
deriving DecidableEq

/-- The C++ expression dynamic_cast applied to an AvgGlGpu target type: a
null pointer or a pointer whose dynamic type is not AvgGlGpu yields null,
otherwise the narrowed pointer. -/
def dynamicCastAvgGlGpu : Option IAvgGpuObj → Option AvgGlGpu
  | none => none
  | some (.glGpu g) => some g
  | some (.otherBackend _) => none

/-- A platform surface handle (IAvgGlPlatformSurfaceRenderTarget), opaque to
the factory, which only checks it for null. -/
abbrev Surface : Type := Nat

/-- Modelled from the spec: the render target object AvgGlRenderTarget of
AvgGlGpu.h / .cpp is not under the given sources.  Per the spec it is
constructed fully formed, holds a structural (non-owning) back-reference to
its context and wraps the surface, and the construction call transfers one
ownership claim to the caller. -/
structure AvgGlRenderTarget where
  gpu : AvgGlGpu
  gl : Surface
  refCount : Nat
deriving DecidableEq

/-- Modelled from the spec: the constructor of AvgGlRenderTarget (missing
source).  It stores the context by structural reference, leaving the
context's own count untouched, wraps the surface, and registers the single
ownership claim that the factory call hands to the caller. -/
def AvgGlRenderTarget.new (g : AvgGlGpu) (gl : Surface) : AvgGlRenderTarget :=
  { gpu := g, gl := gl, refCount := 1 }

/-- The factory state: AvgFactory adds no fields of its own beyond the
reference-counted base, so its state is the ownership count. -/
structure AvgFactory where
  refCount : Nat
deriving DecidableEq

/-- AvgFactory::GetVersion, from factory.cpp: the body is a single statement
returning the constant 0; the factory state is returned unchanged. -/
def AvgFactory.GetVersion (f : AvgFactory) : Int × AvgFactory :=
  (0, f)

/-- AvgFactory::CreateGlGpu, from factory.cpp: a single statement delegating
to AvgGlGpu::Create with the gles flag, the resolver and the out parameter
forwarded unchanged, returning its status verbatim; no check of any kind is
performed before delegating. -/
def AvgFactory.CreateGlGpu (required : List String) (gles : Bool)
    (glGetProcAddress : Option GlResolver) : Int × Option AvgGlGpu :=
  AvgGlGpu.Create required gles glGetProcAddress

/-- AvgFactory::CreateGlGpuRenderTarget, from factory.cpp: narrows gpu with
dynamic_cast, returns E_INVALIDARG when the cast yields null; returns
E_INVALIDARG when gl is null; otherwise writes a newly constructed
AvgGlRenderTarget over the context and the surface and returns 0.  The
second component none means the out parameter was not written. -/
def AvgFactory.CreateGlGpuRenderTarget (gpu : Option IAvgGpuObj)
    (gl : Option Surface) : Int × Option AvgGlRenderTarget :=
  match dynamicCastAvgGlGpu gpu with
  | none => (E_INVALIDARG, none)
  | some g =>
    match gl with
    | none => (E_INVALIDARG, none)
    | some s => (S_OK, some (AvgGlRenderTarget.new g s))

/-- CreateAvaloniaNativeGraphics, from factory.cpp: allocates an AvgFactory
(whose base-class count starts at zero, modelled from the spec since
comimpl.h is not under the given sources), registers one claim via AddRef,
and returns the pointer, never null. -/
def CreateAvaloniaNativeGraphics : Option AvgFactory :=
  let f : AvgFactory := { refCount := 0 }
  let f' : AvgFactory := { f with refCount := f.refCount + 1 }
  some f'

theorem resolveAll_eq_none_of_mem {res : GlResolver} {names : List String}
    {n : String} (hmem : n ∈ names) (hfail : res n = none) :
    resolveAll res names = none := by
  induction names with
  | nil => cases hmem
  | cons m rest ih =>
    rcases List.mem_cons.mp hmem with h | h
    · subst h
      simp [resolveAll, hfail]
    · unfold resolveAll
      cases hres : res m with
      | none => rfl
      | some addr => simp [ih h]

/-- C1: a context argument that does not narrow to AvgGlGpu under
dynamic_cast (including a null context) makes CreateGlGpuRenderTarget
return E_INVALIDARG and leave the out parameter unwritten, for every
surface argument. -/
theorem createGlGpuRenderTarget_invalid_context (gpu : Option IAvgGpuObj)
    (gl : Option Surface) (h : dynamicCastAvgGlGpu gpu = none) :
    AvgFactory.CreateGlGpuRenderTarget gpu gl = (E_INVALIDARG, none) := by
  unfold AvgFactory.CreateGlGpuRenderTarget
  rw [h]

theorem createGlGpuRenderTarget_invalid_context_witness :
    dynamicCastAvgGlGpu (some (.otherBackend 7)) = none ∧
    AvgFactory.CreateGlGpuRenderTarget (some (.otherBackend 7)) (some 0) =
      (E_INVALIDARG, none) :=
  ⟨rfl, createGlGpuRenderTarget_invalid_context (some (.otherBackend 7))
    (some 0) rfl⟩

/-- C2: a null surface argument makes CreateGlGpuRenderTarget return
E_INVALIDARG and leave the out parameter unwritten, whatever the context
argument is. -/
theorem createGlGpuRenderTarget_null_surface (gpu : Option IAvgGpuObj) :
    AvgFactory.CreateGlGpuRenderTarget gpu none = (E_INVALIDARG, none) := by
  unfold AvgFactory.CreateGlGpuRenderTarget
  cases h : dynamicCastAvgGlGpu gpu <;> rfl

/-- C3: with a context of dynamic type AvgGlGpu and a non-null surface,
CreateGlGpuRenderTarget returns status 0 and writes a render-target handle
that references exactly the given context and the given surface and carries
one ownership claim (count 1) for the caller. -/
theorem createGlGpuRenderTarget_success_structure (g : AvgGlGpu)
    (s : Surface) :
    ∃ rt : AvgGlRenderTarget,
      AvgFactory.CreateGlGpuRenderTarget (some (.glGpu g)) (some s) =
        (0, some rt) ∧ rt.gpu = g ∧ rt.gl = s ∧ rt.refCount = 1 :=
  ⟨AvgGlRenderTarget.new g s, rfl, rfl, rfl, rfl⟩

/-- C4: when the resolver fails to resolve at least one required entry
point, CreateGlGpu returns the failure status E_FAIL (nonzero) and writes
no handle, so no partially-initialized context is observable. -/
theorem createGlGpu_resolution_failure (required : List String)
    (gles : Bool) (res : GlResolver) (n : String) (hmem : n ∈ required)
    (hfail : res n = none) :
    AvgFactory.CreateGlGpu required gles (some res) = (E_FAIL, none) ∧
      E_FAIL ≠ 0 := by
  refine ⟨?_, by decide⟩
  simp only [AvgFactory.CreateGlGpu, AvgGlGpu.Create,
    resolveAll_eq_none_of_mem hmem hfail]

theorem createGlGpu_resolution_failure_witness :
    AvgFactory.CreateGlGpu ["glGetError"] false (some fun _ => none) =
      (E_FAIL, none) ∧ E_FAIL ≠ 0 :=
  createGlGpu_resolution_failure ["glGetError"] false (fun _ => none)
    "glGetError" (List.mem_singleton.mpr rfl) rfl

/-- C5: the exported entry point, which takes no arguments, returns a
non-null factory handle whose reference count is exactly 1 at the moment of
return. -/
theorem createAvaloniaNativeGraphics_returns_count_one :
    ∃ f : AvgFactory, CreateAvaloniaNativeGraphics = some f ∧
      f.refCount = 1 :=
  ⟨{ refCount := 1 }, rfl, rfl⟩

/-- C6: a capability query for an identifier the object implements returns
status 0 with a non-null narrowed handle and increments the count by exactly
one; a query for an unimplemented identifier returns the negative result
E_NOINTERFACE, writes no handle, and leaves the count unchanged. -/
theorem queryInterface_spec (o : ComObject) (iid : IID) :
    (iid ∈ o.supported →
      ∃ h : ComObject, o.QueryInterface iid = (S_OK, some h, h) ∧
        h.refCount = o.refCount + 1) ∧
    (iid ∉ o.supported →
      o.QueryInterface iid = (E_NOINTERFACE, none, o) ∧ E_NOINTERFACE < 0) := by
  constructor
  · intro hmem
    refine ⟨{ o with refCount := o.refCount + 1 }, ?_, rfl⟩
    unfold ComObject.QueryInterface ComObject.AddRef
    simp [hmem]
  · intro hmem
    refine ⟨?_, by decide⟩
    unfold ComObject.QueryInterface
    simp [hmem]

theorem queryInterface_spec_witness :
    ((5 : IID) ∈ (ComObject.new [5]).supported →
      ∃ h : ComObject,
        (ComObject.new [5]).QueryInterface 5 = (S_OK, some h, h) ∧
          h.refCount = (ComObject.new [5]).refCount + 1) ∧
    ((5 : IID) ∉ (ComObject.new [5]).supported →
      (ComObject.new [5]).QueryInterface 5 = (E_NOINTERFACE, none,
        ComObject.new [5]) ∧ E_NOINTERFACE < 0) :=
  queryInterface_spec (ComObject.new [5]) 5

/-- C7: GetVersion returns the fixed constant 0 and leaves the factory
state, including its reference count, unchanged; it cannot fail. -/
theorem getVersion_constant_no_side_effects (f : AvgFactory) :
    f.GetVersion = (0, f) :=
  rfl

/-- C8: a successful CreateGlGpuRenderTarget stores the supplied context in
the render target by structural reference, with the context's reference
count exactly as it was supplied: no ownership claim is registered on the
context. -/
theorem createGlGpuRenderTarget_context_refcount_unchanged (g : AvgGlGpu)
    (s : Surface) :
    ((AvgFactory.CreateGlGpuRenderTarget (some (.glGpu g)) (some s)).2.map
      (fun rt => rt.gpu)) = some g ∧
    ((AvgFactory.CreateGlGpuRenderTarget (some (.glGpu g)) (some s)).2.map
      (fun rt => rt.gpu.refCount)) = some g.refCount :=
  ⟨rfl, rfl⟩

/-- C9: the two argument checks are the only failure conditions: for every
context of dynamic type AvgGlGpu — even one whose entry-point list is empty
or whose count is arbitrary, i.e. no initialization state is inspected —
and every non-null surface, the call returns status 0 and writes a non-null
handle. -/
theorem createGlGpuRenderTarget_no_further_validation (gles : Bool)
    (eps : List (String × Nat)) (rc : Nat) (s : Surface) :
    (AvgFactory.CreateGlGpuRenderTarget
        (some (.glGpu { gles := gles, entryPoints := eps, refCount := rc }))
        (some s)).1 = 0 ∧
    (AvgFactory.CreateGlGpuRenderTarget
        (some (.glGpu { gles := gles, entryPoints := eps, refCount := rc }))
        (some s)).2.isSome = true :=
  ⟨rfl, rfl⟩

/-- C10: CreateGlGpu is a pure pass-through: every argument, the resolver
included and even when it is null, is forwarded unchanged to
AvgGlGpu::Create and the status is returned verbatim; in particular a null
resolver is not intercepted by an E_INVALIDARG check in the factory, it
reaches Create and yields its failure code. -/
theorem createGlGpu_passthrough (required : List String) (gles : Bool)
    (glGetProcAddress : Option GlResolver) :
    AvgFactory.CreateGlGpu required gles glGetProcAddress =
      AvgGlGpu.Create required gles glGetProcAddress ∧
    AvgFactory.CreateGlGpu required gles none = (E_FAIL, none) ∧
    E_FAIL ≠ E_INVALIDARG :=
  ⟨rfl, rfl, by decide⟩
